import Mathlib

/-!
Verification development for the two chat applications in this repository
(src/word.py, the Gemini chat + daily TOEIC vocabulary trainer, and
src/consult.py, the mindset-coach chatbot).

The Python sources are shallowly embedded below:
  * calendar dates are a record of year, month, day; the numeric form
    produced by strftime and int() is made explicit;
  * the daily seed pipeline of word.py (sha256 of the decimal date string,
    taken mod 10^8) is embedded with a full executable SHA-256;
  * the pseudo-random sampling of the Python random module is embedded with
    the actual MT19937 generator as implemented by CPython (init_by_array
    seeding, tempered 32-bit output) together with the pure-Python layers
    Random.sample, Random.choice and the internal rejection sampler.
    Loops of the source that are not structurally bounded (the rejection
    loop of the sampler) are given explicit fuel; exhausting the fuel is
    reported as PyErr.outOfFuel and corresponds to the source spinning in
    its while loop, which no theorem below depends on;
  * the conversation adapters, the streaming reply orchestrator and the
    history-trimming handlers are embedded as total functions over an
    explicit environment describing the outcomes of the external Gemini
    API calls made during one request.
-/

/-- A calendar date, as produced by datetime.date / datetime.datetime. -/
structure Date where
  year : Nat
  month : Nat
  day : Nat
deriving DecidableEq

/-- The dense numeric form of a date: int(d.strftime("%Y%m%d")) in word.py and
int(TODAY.replace("-", "")) in consult.py both evaluate to this number for the
zero-padded formats the sources use. -/
def dateNum (d : Date) : Nat :=
  d.year * 10000 + d.month * 100 + d.day

/- ### SHA-256 (hashlib.sha256), executable embedding -/

/-- Right rotation of a 32-bit word. -/
def rotr32 (n x : Nat) : Nat :=
  ((x >>> n) ||| (x <<< (32 - n))) % 4294967296

/-- The 64 SHA-256 round constants, in decimal. -/
def shaK : List Nat :=
  [1116352408, 1899447441, 3049323471, 3921009573, 961987163, 1508970993,
   2453635748, 2870763221, 3624381080, 310598401, 607225278, 1426881987,
   1925078388, 2162078206, 2614888103, 3248222580, 3835390401, 4022224774,
   264347078, 604807628, 770255983, 1249150122, 1555081692, 1996064986,
   2554220882, 2821834349, 2952996808, 3210313671, 3336571891, 3584528711,
   113926993, 338241895, 666307205, 773529912, 1294757372, 1396182291,
   1695183700, 1986661051, 2177026350, 2456956037, 2730485921, 2820302411,
   3259730800, 3345764771, 3516065817, 3600352804, 4094571909, 275423344,
   430227734, 506948616, 659060556, 883997877, 958139571, 1322822218,
   1537002063, 1747873779, 1955562222, 2024104815, 2227730452, 2361852424,
   2428436474, 2756734187, 3204031479, 3329325298]

/-- The SHA-256 initial hash value, in decimal. -/
def shaH0 : List Nat :=
  [1779033703, 3144134277, 1013904242, 2773480762,
   1359893119, 2600822924, 528734635, 1541459225]

/-- Big-endian 8-byte encoding of a 64-bit quantity. -/
def be64 (n : Nat) : List Nat :=
  [(n >>> 56) % 256, (n >>> 48) % 256, (n >>> 40) % 256, (n >>> 32) % 256,
   (n >>> 24) % 256, (n >>> 16) % 256, (n >>> 8) % 256, n % 256]

/-- SHA-256 message padding: append 0x80, zero bytes up to 56 mod 64, and the
bit length as a big-endian 64-bit integer. -/
def shaPad (msg : List Nat) : List Nat :=
  msg ++ 0x80 :: List.replicate ((119 - msg.length % 64) % 64) 0
      ++ be64 (8 * msg.length)

/-- Group a byte list into big-endian 32-bit words. -/
def bytesToWords : List Nat → List Nat
  | a :: b :: c :: d :: rest =>
      (a * 16777216 + b * 65536 + c * 256 + d) :: bytesToWords rest
  | _ => []

/-- Split a byte list into 64-byte blocks. -/
def chunks64 (l : List Nat) : List (List Nat) :=
  if h : l = [] then []
  else l.take 64 :: chunks64 (l.drop 64)
termination_by l.length
decreasing_by
  simp only [List.length_drop]
  have : 0 < l.length := List.length_pos.mpr h
  omega

/-- Extend the 16-word message block to the 64-word schedule. -/
def extendW : Nat → List Nat → List Nat
  | 0, w => w
  | s + 1, w =>
      let i := w.length
      let w15 := w.getD (i - 15) 0
      let w2 := w.getD (i - 2) 0
      let s0 := (rotr32 7 w15) ^^^ (rotr32 18 w15) ^^^ (w15 >>> 3)
      let s1 := (rotr32 17 w2) ^^^ (rotr32 19 w2) ^^^ (w2 >>> 10)
      extendW s (w ++ [(w.getD (i - 16) 0 + s0 + w.getD (i - 7) 0 + s1) % 4294967296])

/-- One SHA-256 round on the working variables [a,b,c,d,e,f,g,h]. -/
def shaRound (st : List Nat) (ki wi : Nat) : List Nat :=
  match st with
  | [a, b, c, d, e, f, g, h] =>
      let s1 := (rotr32 6 e) ^^^ (rotr32 11 e) ^^^ (rotr32 25 e)
      let ch := (e &&& f) ^^^ ((e ^^^ 4294967295) &&& g)
      let t1 := (h + s1 + ch + ki + wi) % 4294967296
      let s0 := (rotr32 2 a) ^^^ (rotr32 13 a) ^^^ (rotr32 22 a)
      let maj := (a &&& b) ^^^ (a &&& c) ^^^ (b &&& c)
      let t2 := (s0 + maj) % 4294967296
      [(t1 + t2) % 4294967296, a, b, c, (d + t1) % 4294967296, e, f, g]
  | other => other

/-- SHA-256 compression of one 16-word block into the running hash. -/
def compressBlock (h : List Nat) (block : List Nat) : List Nat :=
  let w := extendW 48 block
  let st := (shaK.zip w).foldl (fun st p => shaRound st p.1 p.2) h
  (h.zip st).map (fun p => (p.1 + p.2) % 4294967296)

/-- The SHA-256 digest of a byte string, as eight 32-bit words. -/
def sha256Words (msg : List Nat) : List Nat :=
  (chunks64 (shaPad msg)).foldl (fun h b => compressBlock h (bytesToWords b)) shaH0

/-- The digest as one natural number; equals int(hashlib.sha256(b).hexdigest(), 16). -/
def sha256Nat (msg : List Nat) : Nat :=
  (sha256Words msg).foldl (fun acc w => acc * 4294967296 + w) 0

/-- The byte encoding of an ASCII string, as used by str.encode(). -/
def strBytes (s : String) : List Nat :=
  s.toList.map Char.toNat

/- ### CPython random: MT19937 core (_randommodule.c) -/

/-- The MT19937 generator state: the 624-word vector and the output index. -/
structure MTState where
  mt : List Nat
  mti : Nat
deriving DecidableEq

/-- Loop of init_genrand filling mt[1..623]. -/
def igLoop : Nat → Nat → List Nat → List Nat
  | 0, _, mt => mt
  | steps + 1, i, mt =>
      let prev := mt.getD (i - 1) 0
      igLoop steps (i + 1)
        (mt.set i ((1812433253 * (prev ^^^ (prev >>> 30)) + i) % 4294967296))

/-- init_genrand of the reference MT19937 implementation. -/
def initGenrand (s : Nat) : List Nat :=
  igLoop 623 1 ((List.replicate 624 0).set 0 (s % 4294967296))

/-- First mixing loop of init_by_array; returns the index variable it leaves
behind together with the state, since the second loop continues from it. -/
def ibaLoop1 : Nat → Nat → Nat → List Nat → List Nat → Nat × List Nat
  | 0, i, _, _, mt => (i, mt)
  | steps + 1, i, j, key, mt =>
      let prev := mt.getD (i - 1) 0
      let v := ((mt.getD i 0 ^^^ (((prev ^^^ (prev >>> 30)) * 1664525) % 4294967296))
                 + key.getD j 0 + j) % 4294967296
      let mt1 := mt.set i v
      let i1 := i + 1
      let p := if i1 ≥ 624 then (1, mt1.set 0 (mt1.getD 623 0)) else (i1, mt1)
      let j1 := if j + 1 ≥ key.length then 0 else j + 1
      ibaLoop1 steps p.1 j1 key p.2

/-- Second mixing loop of init_by_array. -/
def ibaLoop2 : Nat → Nat → List Nat → List Nat
  | 0, _, mt => mt
  | steps + 1, i, mt =>
      let prev := mt.getD (i - 1) 0
      let v := ((mt.getD i 0 ^^^ (((prev ^^^ (prev >>> 30)) * 1566083941) % 4294967296))
                 + (4294967296 - i % 4294967296)) % 4294967296
      let mt1 := mt.set i v
      let i1 := i + 1
      let p := if i1 ≥ 624 then (1, mt1.set 0 (mt1.getD 623 0)) else (i1, mt1)
      ibaLoop2 steps p.1 p.2

/-- init_by_array: seed the state vector from a key of 32-bit words. -/
def initByArray (key : List Nat) : List Nat :=
  let mt0 := initGenrand 19650218
  let p := ibaLoop1 (max 624 key.length) 1 0 key mt0
  let mt2 := ibaLoop2 623 p.1 p.2
  mt2.set 0 2147483648

/-- Little-endian 32-bit word decomposition of a natural number. -/
def natToWords (n : Nat) : List Nat :=
  if h : n = 0 then []
  else (n % 4294967296) :: natToWords (n / 4294967296)
termination_by n
decreasing_by
  exact Nat.div_lt_self (Nat.pos_of_ne_zero h) (by norm_num)

/-- CPython random_seed for a nonnegative int: split its absolute value into
32-bit chunks (at least one chunk) and run init_by_array; the fresh state
reports index 624 so the first output triggers a regeneration. -/
def pySeed (n : Nat) : MTState :=
  ⟨initByArray (if n = 0 then [0] else natToWords n), 624⟩

/-- One in-place step of the state regeneration ("twisting") loop, expressed
with modular indices so a single sequential fold reproduces the three C loops. -/
def mtTwistStep (mt : List Nat) (kk : Nat) : List Nat :=
  let y := (mt.getD kk 0 &&& 2147483648) ||| (mt.getD ((kk + 1) % 624) 0 &&& 2147483647)
  let mag := if y % 2 = 1 then 2567483615 else 0
  mt.set kk ((mt.getD ((kk + 397) % 624) 0 ^^^ (y >>> 1)) ^^^ mag)

/-- Regenerate all 624 words of the state. -/
def mtTwist (mt : List Nat) : List Nat :=
  (List.range 624).foldl mtTwistStep mt

/-- genrand_uint32: next tempered 32-bit output word, plus the new state. -/
def genrandUint32 (s : MTState) : Nat × MTState :=
  let p := if s.mti ≥ 624 then (mtTwist s.mt, 0) else (s.mt, s.mti)
  let y0 := p.1.getD p.2 0
  let y1 := y0 ^^^ (y0 >>> 11)
  let y2 := y1 ^^^ ((y1 <<< 7) &&& 2636928640)
  let y3 := y2 ^^^ ((y2 <<< 15) &&& 4022730752)
  let y4 := y3 ^^^ (y3 >>> 18)
  (y4, ⟨p.1, p.2 + 1⟩)

/-- Random.getrandbits for 0 < k ≤ 32 bits: the top k bits of one output word. -/
def getrandbits (k : Nat) (s : MTState) : Nat × MTState :=
  let p := genrandUint32 s
  (p.1 >>> (32 - k), p.2)

/-- int.bit_length. -/
def bitLength (n : Nat) : Nat :=
  if n = 0 then 0 else Nat.log2 n + 1

/-- Errors of the embedded Python fragments. outOfFuel stands for the source
spinning in an unbounded rejection loop; valueError and indexError carry the
message of the exception the source raises. -/
inductive PyErr where
  | valueError : String → PyErr
  | indexError : String → PyErr
  | outOfFuel : PyErr
deriving DecidableEq

/-- The rejection loop of Random._randbelow_with_getrandbits, with fuel. -/
def randbelowFuel : Nat → Nat → Nat → MTState → Except PyErr (Nat × MTState)
  | 0, _, _, _ => .error .outOfFuel
  | fuel + 1, k, n, s =>
      let p := getrandbits k s
      if p.1 < n then .ok (p.1, p.2) else randbelowFuel fuel k n p.2

/-- Random._randbelow: draw k = n.bit_length() bits, retrying until < n. -/
def randbelow (n : Nat) (s : MTState) : Except PyErr (Nat × MTState) :=
  randbelowFuel 100 (bitLength n) n s

/-- The selection loop of Random.sample for small populations (the "pool"
method): swap each chosen element out of the shrinking pool. -/
def sampleLoopPool {α : Type} : Nat → Nat → Nat → MTState → List α → List α →
    Except PyErr (List α × MTState)
  | 0, _, _, s, _, acc => .ok (acc.reverse, s)
  | steps + 1, i, n, s, pool, acc =>
      match randbelow (n - i) s with
      | .error e => .error e
      | .ok (j, s1) =>
          match pool.get? j with
          | none => .error (.indexError "list index out of range")
          | some x =>
              sampleLoopPool steps (i + 1) n s1
                (pool.set j (pool.getD (n - i - 1) x)) (x :: acc)

/-- The rejection loop of the "selection set" method of Random.sample. -/
def sampleRetry : Nat → Nat → List Nat → MTState → Except PyErr (Nat × MTState)
  | 0, _, _, _ => .error .outOfFuel
  | fuel + 1, n, selected, s =>
      match randbelow n s with
      | .error e => .error e
      | .ok (j, s1) =>
          if j ∈ selected then sampleRetry fuel n selected s1 else .ok (j, s1)

/-- The selection loop of Random.sample for large populations. -/
def sampleLoopSet {α : Type} : Nat → Nat → List Nat → MTState → List α → List α →
    Except PyErr (List α × MTState)
  | 0, _, _, s, _, acc => .ok (acc.reverse, s)
  | steps + 1, n, selected, s, pop, acc =>
      match sampleRetry 100 n selected s with
      | .error e => .error e
      | .ok (j, s1) =>
          match pop.get? j with
          | none => .error (.indexError "list index out of range")
          | some x => sampleLoopSet steps n (j :: selected) s1 pop (x :: acc)

/-- Random.sample(population, k). The count is an int and may be negative, in
which case the bounds check raises ValueError. The table-size threshold that
selects between the pool method and the selection-set method is computed here
with an exact base-4 ceiling logarithm where the source uses floating-point
math.log; the two agree except possibly at exact powers of four, and no
property below depends on which method is selected. -/
def pySample {α : Type} (s : MTState) (pop : List α) (k : Int) :
    Except PyErr (List α × MTState) :=
  let n := pop.length
  if 0 ≤ k ∧ k ≤ (n : Int) then
    let kn := k.toNat
    let setsize := 21 + (if kn > 5 then 4 ^ (Nat.clog 4 (kn * 3)) else 0)
    if n ≤ setsize then sampleLoopPool kn 0 n s pop []
    else sampleLoopSet kn n [] s pop []
  else .error (.valueError "Sample larger than population or is negative")

/-- Random.choice(seq): raise IndexError on an empty sequence, else index by
one rejection-sampled draw. -/
def pyChoice {α : Type} (s : MTState) (seq : List α) : Except PyErr (α × MTState) :=
  if seq.length = 0 then .error (.indexError "Cannot choose from an empty sequence")
  else
    match randbelow seq.length s with
    | .error e => .error e
    | .ok (j, s1) =>
        match seq.get? j with
        | none => .error (.indexError "list index out of range")
        | some x => .ok (x, s1)

/- ### word.py: daily TOEIC word selection -/

/-- One entry of the TOEIC wordbank: keys word, pos, kr, ex, ex_kr. -/
structure WordItem where
  word : String
  pos : String
  kr : String
  ex : String
  ex_kr : String
deriving DecidableEq

/-- The static wordbank WORD_BANK of word.py. -/
def WORD_BANK : List WordItem :=
  [⟨"allocate", "v.", "할당하다", "The manager allocated more resources to the project.", "관리자는 그 프로젝트에 더 많은 자원을 할당했다."⟩,
   ⟨"amendment", "n.", "수정, 개정", "The contract requires an amendment to extend the deadline.", "마감 연장을 위해 계약서에 개정이 필요하다."⟩,
   ⟨"appraisal", "n.", "평가", "Annual performance appraisals are scheduled for next week.", "연간 성과 평가는 다음 주에 예정되어 있다."⟩,
   ⟨"attain", "v.", "달성하다", "We attained our quarterly sales target.", "우리는 분기 매출 목표를 달성했다."⟩,
   ⟨"backlog", "n.", "미처리분, 밀린 일", "The team is working through a backlog of support tickets.", "팀은 밀린 지원 티켓을 처리 중이다."⟩,
   ⟨"benchmark", "n./v.", "기준, 기준으로 삼다", "We benchmarked our service against industry leaders.", "우리는 업계 선도 기업을 기준으로 서비스를 비교했다."⟩,
   ⟨"contingency", "n.", "우발 사태, 비상 대비", "Please prepare a contingency plan for potential delays.", "잠재적 지연에 대비한 비상 계획을 준비해 주세요."⟩,
   ⟨"deduct", "v.", "공제하다", "Taxes will be deducted from your paycheck.", "세금은 급여에서 공제될 것이다."⟩,
   ⟨"discrepancy", "n.", "불일치", "The audit found a discrepancy in the inventory count.", "감사에서 재고 수량의 불일치가 발견되었다."⟩,
   ⟨"feasible", "adj.", "실현 가능한", "The proposal is financially feasible.", "그 제안은 재정적으로 실현 가능하다."⟩,
   ⟨"incentive", "n.", "장려금, 유인책", "Employees received incentives for meeting deadlines.", "직원들은 마감 준수에 대한 장려금을 받았다."⟩,
   ⟨"liability", "n.", "책임, 부채", "The company has no liability for lost items.", "회사는 분실물에 대한 책임이 없다."⟩,
   ⟨"logistics", "n.", "물류, 운영 관리", "We need to finalize the event logistics.", "행사 운영 계획을 마무리해야 한다."⟩,
   ⟨"negotiate", "v.", "협상하다", "They negotiated better terms for the supplier.", "그들은 공급업체와 더 나은 조건을 협상했다."⟩,
   ⟨"overhead", "n.", "간접비", "Cutting overhead can improve profitability.", "간접비를 줄이면 수익성이 개선될 수 있다."⟩,
   ⟨"procurement", "n.", "조달", "The procurement team issued a request for proposals.", "조달 팀이 제안요청서를 발행했다."⟩,
   ⟨"redundant", "adj.", "불필요한, 중복의", "Some redundant processes were eliminated.", "일부 중복된 프로세스가 제거되었다."⟩,
   ⟨"reimburse", "v.", "상환하다, 변제하다", "Travel expenses will be reimbursed within a week.", "여비는 일주일 내에 상환된다."⟩,
   ⟨"retention", "n.", "유지, 보유", "Improving customer retention is our top priority.", "고객 유지율 향상이 최우선 과제다."⟩,
   ⟨"viable", "adj.", "실행 가능한", "Is the timeline viable for the team?", "그 일정이 팀에 실행 가능한가요?"⟩]

/-- DAILY_WORD_COUNT of word.py. -/
def DAILY_WORD_COUNT : Nat := 12

/-- get_today_seed of word.py, with the date made an explicit argument:
hash the decimal string of the dense date number with SHA-256, read the hex
digest as an integer, and reduce it modulo 10^8. -/
def get_today_seed (d : Date) : Nat :=
  sha256Nat (strBytes (Nat.repr (dateNum d))) % 100000000

/-- The seed-indexed core of pick_daily_words: Random(seed) then either the
full-copy shortcut or Random.sample. The selection depends only on the seed,
the catalog and the count. -/
def pickFromSeed {α : Type} (seed : Nat) (bank : List α) (k : Int) :
    Except PyErr (List α) :=
  let rnd := pySeed seed
  if k ≥ (bank.length : Int) then .ok bank
  else
    match pySample rnd bank k with
    | .ok p => .ok p.1
    | .error e => .error e

/-- pick_daily_words of word.py, with the date made an explicit argument. -/
def pick_daily_words (d : Date) (bank : List WordItem) (k : Int) :
    Except PyErr (List WordItem) :=
  pickFromSeed (get_today_seed d) bank k

/- ### consult.py: daily positive lines -/

/-- The template list of daily_positive_lines, with the f-string name_hint
interpolation of the first entry made explicit. -/
def dplTemplates (name_hint : String) : List String :=
  [name_hint ++ ", 오늘은 \x27완벽\x27이 아니라 \x27전진\x27이면 충분해요. 1%만 성장해봅시다.",
   "딱 25분만 집중 + 5분 휴식(포모도로) 2세트면 탄성이 붙어요.",
   "비교 대신 기록: 어제의 나와 오늘의 나만 비교해요.",
   "뇌는 시작하면 따라옵니다. 2분만 착수 규칙으로 시동을 걸어봐요.",
   "불안은 행동으로만 줄어듭니다. 너무 작아 보이는 일부터 체크 ✔"]

/-- The seed-indexed core of daily_positive_lines: reseed the module-level
generator, draw the line count with random.choice([2, 3]), then sample that
many template lines. -/
def dplFromSeed (seed : Nat) (name_hint : String) : Except PyErr (List String) :=
  let s0 := pySeed seed
  let templates := dplTemplates name_hint
  match pyChoice s0 [2, 3] with
  | .error e => .error e
  | .ok (k, s1) =>
      match pySample s1 templates (Int.ofNat k) with
      | .error e => .error e
      | .ok p => .ok p.1

/-- daily_positive_lines of consult.py, with the date (the module constant
TODAY) made an explicit argument; the seed is int(TODAY.replace("-", "")). -/
def daily_positive_lines (d : Date) (name_hint : String) : Except PyErr (List String) :=
  dplFromSeed (dateNum d) name_hint

/- ### Conversation adapters -/

/-- A message of consult.py session state: both keys are always present. -/
structure ChatMsg where
  role : String
  content : String
deriving DecidableEq

/-- A message handed to word.py to_gemini_history, which reads both keys with
dict.get and therefore tolerates their absence. -/
structure WordMsg where
  role : Option String
  content : Option String
deriving DecidableEq

/-- One turn in the Gemini history schema. -/
structure GeminiTurn where
  role : String
  parts : List String
deriving DecidableEq

/-- MAX_HISTORY of consult.py. -/
def MAX_HISTORY : Nat := 30

/-- The Python slice l[-n:] for n > 0: the last min(n, len) elements. -/
def pySliceLast {α : Type} (n : Nat) (l : List α) : List α :=
  l.drop (l.length - n)

/-- The loop body of convert_to_gemini_history of consult.py. -/
def consultConvMsg (m : ChatMsg) : GeminiTurn :=
  ⟨if m.role = "user" then "user" else "model", [m.content]⟩

/-- convert_to_gemini_history of consult.py: map the loop body over the last
MAX_HISTORY messages. -/
def convert_to_gemini_history (messages : List ChatMsg) : List GeminiTurn :=
  (pySliceLast MAX_HISTORY messages).map consultConvMsg

/-- The loop body of to_gemini_history of word.py: msg.get("role") == "user"
selects the role and msg.get("content", "") supplies the sole part. -/
def wordConvMsg (m : WordMsg) : GeminiTurn :=
  ⟨if m.role = some "user" then "user" else "model", [m.content.getD ""]⟩

/-- to_gemini_history of word.py: map the loop body over the whole history. -/
def to_gemini_history (chat_history : List WordMsg) : List GeminiTurn :=
  chat_history.map wordConvMsg

/-- trim_history of consult.py. -/
def trim_history (messages : List ChatMsg) : List ChatMsg :=
  if messages.length > MAX_HISTORY then pySliceLast MAX_HISTORY messages
  else messages

/- ### Reply orchestration (consult.py stream_gemini_reply) -/

/-- The external calls a single reply request can issue: the streaming
send_message, the non-streaming send_message on the same chat session, and the
stateless generate_content. -/
inductive ApiCall where
  | streamSend : ApiCall
  | singleSend : ApiCall
  | statelessGen : ApiCall
deriving DecidableEq

/-- The outcomes of the external Gemini calls during one reply request.
startChatFails: model.start_chat raises. chunks: the sequence of optional
text attributes delivered by the streaming iteration before it ends or
raises (a mid-stream exception only truncates this list; the source catches
it and continues identically). sendResult and genResult: the non-streaming
send_message and the stateless generate_content either raise (error, with
the message of the exception) or return a response whose optional text
attribute is the payload. A response object without a usable text attribute
in the stateless tier raises and is therefore folded into the error case. -/
structure GeminiEnv where
  startChatFails : Bool
  chunks : List (Option String)
  sendResult : Except String (Option String)
  genResult : Except String (Option String)

/-- Python truthiness-based accumulation of streamed chunk texts:
only a present, non-empty text is appended. -/
def accumChunks (chunks : List (Option String)) : String :=
  chunks.foldl (fun acc c =>
    match c with
    | some s => if s = "" then acc else acc ++ s
    | none => acc) ""

/-- The whitespace characters str.strip() removes from ASCII text (the source
never feeds it other Unicode space characters in the checked paths). -/
def isPySpace (c : Char) : Bool :=
  c == ' ' || c == '\t' || c == '\n' || c == '\r'

/-- str.strip(). -/
def pyStrip (s : String) : String :=
  String.mk (((s.toList.dropWhile isPySpace).reverse.dropWhile isPySpace).reverse)

/-- Python x or d for an optional string: the default replaces None and "". -/
def pyOr (t : Option String) (d : String) : String :=
  match t with
  | some s => if s = "" then d else s
  | none => d

/-- The bracketed mood/note context lines prepended to the prompt; an absent
mood skips the first tag and a None or empty note skips the second. -/
def moodTags (mood : Option Int) (mood_note : Option String) : String :=
  (match mood with
   | some m => "[오늘의 기분: " ++ toString m ++ "/10]\n"
   | none => "")
  ++ (match mood_note with
      | some s => if s = "" then "" else "[메모: " ++ s ++ "]\n"
      | none => "")

/-- What one reply request produced: the returned text, the external calls it
issued in order, and the augmented prompt and converted history it sent. -/
structure ReplyOutcome where
  text : String
  calls : List ApiCall
  sentPrompt : String
  sentHistory : List GeminiTurn

/-- The stateless generate_content tier with its final error handler. -/
def statelessTier (env : GeminiEnv) (fullPrompt : String)
    (hist : List GeminiTurn) (calls : List ApiCall) : ReplyOutcome :=
  match env.genResult with
  | .ok t => ⟨pyOr t "(빈 응답)", calls ++ [ApiCall.statelessGen], fullPrompt, hist⟩
  | .error e => ⟨"(오류) " ++ e, calls ++ [ApiCall.statelessGen], fullPrompt, hist⟩

/-- stream_gemini_reply of consult.py. Control flow of the source: build the
augmented prompt; inside the outer try, open a chat session seeded with the
converted history and stream the reply, accumulating truthy chunk texts (a
mid-stream exception is swallowed); if the accumulated text is non-blank
after stripping, return it; otherwise retry non-streaming on the same
session; any escape from the outer try (session creation failing, or the
non-streaming retry failing) falls back to the stateless tier, whose own
failure yields the final error string. -/
def stream_gemini_reply (env : GeminiEnv) (prompt : String) (mood : Option Int)
    (mood_note : Option String) (messages : List ChatMsg) : ReplyOutcome :=
  let fullPrompt := moodTags mood mood_note ++ prompt
  let hist := convert_to_gemini_history messages
  if env.startChatFails then
    statelessTier env fullPrompt hist []
  else
    let acc := accumChunks env.chunks
    if pyStrip acc ≠ "" then ⟨acc, [ApiCall.streamSend], fullPrompt, hist⟩
    else
      match env.sendResult with
      | .ok t => ⟨pyOr t "(빈 응답)", [ApiCall.streamSend, ApiCall.singleSend], fullPrompt, hist⟩
      | .error _ => statelessTier env fullPrompt hist [ApiCall.streamSend, ApiCall.singleSend]

/- ### word.py chat input handler (streaming with single fallback) -/

/-- The outcomes of the external calls of the word.py chat handler.
startChatFails: the first model.start_chat raises (leaving chat_obj unbound
as None). chunksResult: the streaming loop either completes with its chunk
texts or raises. restartResult: the re-creation of the chat session inside
the fallback, only consulted when chat_obj is None. sendResult: the
non-streaming send_message of the fallback. -/
structure WordEnv where
  startChatFails : Bool
  chunksResult : Except Unit (List (Option String))
  restartResult : Except String Unit
  sendResult : Except String (Option String)

/-- The chat branch of the word.py Streamlit handler, reduced to the reply
text it stores: streaming first (on success the stripped accumulated text is
the reply, even if empty), then one non-streaming retry that re-creates the
session if it was never bound, then the error string. -/
def word_chat_reply (env : WordEnv) : String :=
  let phase1 : Except Unit String :=
    if env.startChatFails then .error ()
    else
      match env.chunksResult with
      | .ok chunks => .ok (pyStrip (accumChunks chunks))
      | .error _ => .error ()
  match phase1 with
  | .ok t => t
  | .error _ =>
      match (if env.startChatFails then env.restartResult else .ok ()) with
      | .error e => "오류: " ++ e
      | .ok _ =>
          match env.sendResult with
          | .ok t => t.getD "(응답 없음)"
          | .error e => "오류: " ++ e

/- ### Session-state handlers -/

/-- The chat input handler of consult.py: append the user turn, obtain the
orchestrated reply (the orchestrator reads the session history including the
new user turn), append the assistant turn, and trim. -/
def chat_input_handler (messages : List ChatMsg) (user_text : String)
    (env : GeminiEnv) (mood : Option Int) (mood_note : Option String) : List ChatMsg :=
  let withUser := messages ++ [⟨"user", user_text⟩]
  let ans := (stream_gemini_reply env user_text mood mood_note withUser).text
  trim_history (withUser ++ [⟨"assistant", ans⟩])

/-- The message list written by the reset button of consult.py. -/
def consult_reset_messages : List ChatMsg :=
  [⟨"assistant", "대화 내역을 초기화했어요. 무엇이든 편하게 적어주세요."⟩]

/-- The history written by the reset button of word.py. -/
def word_reset_history : List WordMsg := []

/- ### Helper lemmas -/

/-- The Python tail slice keeps min(n, len) elements. -/
theorem pySliceLast_length {α : Type} (n : Nat) (l : List α) :
    (pySliceLast n l).length = min n l.length := by
  simp only [pySliceLast, List.length_drop]
  omega

/-- trim_history is the tail slice in both of its branches. -/
theorem trim_history_eq (l : List ChatMsg) :
    trim_history l = pySliceLast MAX_HISTORY l := by
  unfold trim_history
  by_cases h : l.length > MAX_HISTORY
  · rw [if_pos h]
  · rw [if_neg h]
    unfold pySliceLast
    have h0 : l.length - MAX_HISTORY = 0 := by omega
    rw [h0, List.drop_zero]

/-- A string with a non-empty left part of an append is non-empty. -/
theorem append_left_ne_empty (a b : String) (h : a.length ≠ 0) : a ++ b ≠ "" := by
  intro he
  have h2 := congrArg String.length he
  rw [String.length_append] at h2
  have h4 : ("" : String).length = 0 := rfl
  rw [h4] at h2
  omega

/-- Random.sample with count 0 draws nothing in either method. -/
theorem pySample_zero {α : Type} (s : MTState) (pop : List α) :
    pySample s pop 0 = .ok ([], s) := by
  have h0 : (0 : Int) ≤ 0 ∧ (0 : Int) ≤ (pop.length : Int) :=
    ⟨le_refl 0, Int.natCast_nonneg _⟩
  simp only [pySample, if_pos h0, Int.toNat_zero]
  rw [if_neg (by norm_num : ¬((0 : Nat) > 5))]
  split
  · simp [sampleLoopPool]
  · simp [sampleLoopSet]

/-- Random.sample with a negative count fails its bounds check. -/
theorem pySample_neg {α : Type} (s : MTState) (pop : List α) (k : Int) (hk : k < 0) :
    pySample s pop k
      = .error (.valueError "Sample larger than population or is negative") := by
  simp only [pySample]
  rw [if_neg (fun hc => absurd hc.1 (not_le.mpr hk))]

/- ### Claim theorems -/

/-- Claim C1: for a fixed calendar date and count, the daily selection is
deterministic. The seed of word.py is a pure function of the dense date
number alone, pick_daily_words factors through that seed (so the selected
items and their order depend only on the seed, the catalog and the count),
and the daily positive lines of consult.py are likewise a pure function of
the date and the name hint; hence any two evaluations on dates with equal
numeric form, in particular two calls on the same date, return identical
sequences. -/
theorem c1_daily_selection_deterministic (d1 d2 : Date) (bank : List WordItem)
    (k : Int) (name : String) (h : dateNum d1 = dateNum d2) :
    get_today_seed d1 = get_today_seed d2
    ∧ pick_daily_words d1 bank k = pick_daily_words d2 bank k
    ∧ pick_daily_words d1 bank k = pickFromSeed (get_today_seed d1) bank k
    ∧ daily_positive_lines d1 name = daily_positive_lines d2 name := by
  have hs : get_today_seed d1 = get_today_seed d2 := by
    unfold get_today_seed
    rw [h]
  refine ⟨hs, ?_, rfl, ?_⟩
  · unfold pick_daily_words
    rw [hs]
  · unfold daily_positive_lines
    rw [h]

/-- Witness for C1 at concrete inputs: the two distinct date records below
share the dense numeric form 20250925, so the whole selection pipeline agrees
on them. -/
theorem c1_daily_selection_deterministic_witness :
    get_today_seed ⟨2025, 9, 25⟩ = get_today_seed ⟨2024, 109, 25⟩
    ∧ pick_daily_words ⟨2025, 9, 25⟩ WORD_BANK 12
        = pick_daily_words ⟨2024, 109, 25⟩ WORD_BANK 12
    ∧ pick_daily_words ⟨2025, 9, 25⟩ WORD_BANK 12
        = pickFromSeed (get_today_seed ⟨2025, 9, 25⟩) WORD_BANK 12
    ∧ daily_positive_lines ⟨2025, 9, 25⟩ "친구"
        = daily_positive_lines ⟨2024, 109, 25⟩ "친구" :=
  c1_daily_selection_deterministic ⟨2025, 9, 25⟩ ⟨2024, 109, 25⟩ WORD_BANK 12 "친구"
    (by decide)

/-- Claim C6: whenever the requested count is at least the catalog size,
pick_daily_words returns the full catalog in its original order (the copy the
source takes is equal to the catalog as a value). -/
theorem c6_full_catalog (d : Date) (bank : List WordItem) (k : Int)
    (h : k ≥ (bank.length : Int)) :
    pick_daily_words d bank k = Except.ok bank := by
  simp only [pick_daily_words, pickFromSeed]
  rw [if_pos h]

/-- Witness for C6: requesting 20 of the 20 wordbank entries returns the
wordbank itself. -/
theorem c6_full_catalog_witness :
    pick_daily_words ⟨2025, 9, 25⟩ WORD_BANK 20 = Except.ok WORD_BANK :=
  c6_full_catalog ⟨2025, 9, 25⟩ WORD_BANK 20 (by decide)

/-- Claim C7 is wrong about negative counts: pick_daily_words with count -1 on
the non-empty wordbank does not return an empty sequence; it reaches
Random.sample, whose bounds check raises ValueError. -/
theorem c7_negative_count_counterexample :
    pick_daily_words ⟨2025, 9, 25⟩ WORD_BANK (-1)
      = Except.error (PyErr.valueError "Sample larger than population or is negative") := by
  rfl

/-- Claim C7 amended: count 0 returns an empty sequence without error, but
every strictly negative count raises ValueError from Random.sample (a
negative count never takes the full-catalog branch since the length is
nonnegative). -/
theorem c7_zero_count_amended (d : Date) (bank : List WordItem) :
    pick_daily_words d bank 0 = Except.ok []
    ∧ ∀ k : Int, k < 0 →
        pick_daily_words d bank k
          = Except.error (PyErr.valueError "Sample larger than population or is negative") := by
  constructor
  · simp only [pick_daily_words, pickFromSeed]
    by_cases h : (0 : Int) ≥ (bank.length : Int)
    · rw [if_pos h]
      have h0 : bank.length = 0 := by omega
      rw [List.eq_nil_of_length_eq_zero h0]
    · rw [if_neg h, pySample_zero]
  · intro k hk
    simp only [pick_daily_words, pickFromSeed]
    rw [if_neg (by omega), pySample_neg _ _ _ hk]

/-- Witness for the amended C7: a negative count errors also on the empty
catalog. -/
theorem c7_zero_count_amended_witness :
    pick_daily_words ⟨2025, 9, 25⟩ [] (-2)
      = Except.error (PyErr.valueError "Sample larger than population or is negative") :=
  (c7_zero_count_amended ⟨2025, 9, 25⟩ []).2 (-2) (by decide)

/-- Claim C8 is wrong for the vocabulary app: its reset button writes the
empty history, not a single seeded greeting turn. -/
theorem c8_reset_counterexample : ¬ word_reset_history.length = 1 := by
  decide

/-- Claim C8 amended: after reset, the mindset-coach app holds exactly one
assistant greeting turn, while the vocabulary app holds the empty sequence. -/
theorem c8_reset_amended :
    consult_reset_messages.length = 1
    ∧ consult_reset_messages.map ChatMsg.role = ["assistant"]
    ∧ consult_reset_messages
        = [⟨"assistant", "대화 내역을 초기화했어요. 무엇이든 편하게 적어주세요."⟩]
    ∧ word_reset_history = [] :=
  ⟨rfl, rfl, rfl, rfl⟩

/-- Claim C4 is wrong for the vocabulary app adapter: to_gemini_history of
word.py applies no window at all, so on a 50-turn history it keeps all 50
turns instead of the last min(30, 50) = 30 (30 = MAX_HISTORY, the only
window constant in the repository). -/
theorem c4_window_counterexample :
    (to_gemini_history (List.replicate 50 (⟨some "user", some "안녕"⟩ : WordMsg))).length = 50
    ∧ ¬ (to_gemini_history (List.replicate 50 (⟨some "user", some "안녕"⟩ : WordMsg))).length
        = min MAX_HISTORY (List.replicate 50 (⟨some "user", some "안녕"⟩ : WordMsg)).length := by
  constructor
  · simp [to_gemini_history]
  · simp [to_gemini_history, MAX_HISTORY]

/-- Claim C4 amended: the mindset-coach adapter convert_to_gemini_history
returns exactly the last min(30, length) turns of its input, oldest first
discarded, mapped in original order; the vocabulary adapter to_gemini_history
applies no window and maps every turn in original order. -/
theorem c4_window_amended (msgs : List ChatMsg) (wmsgs : List WordMsg) :
    convert_to_gemini_history msgs
      = (msgs.drop (msgs.length - MAX_HISTORY)).map consultConvMsg
    ∧ (convert_to_gemini_history msgs).length = min MAX_HISTORY msgs.length
    ∧ to_gemini_history wmsgs = wmsgs.map wordConvMsg
    ∧ (to_gemini_history wmsgs).length = wmsgs.length := by
  refine ⟨rfl, ?_, rfl, by simp [to_gemini_history]⟩
  simp only [convert_to_gemini_history, List.length_map, pySliceLast_length]

/-- Claim C5: in both adapters the role user maps to the external role user,
every other role (assistant or unknown) maps to the external role model, and
the turn text becomes the sole content fragment of the external turn; the
adapters are exactly these per-turn maps over their retained windows. -/
theorem c5_role_mapping (m : ChatMsg) (w : WordMsg) (msgs : List ChatMsg)
    (wmsgs : List WordMsg) :
    (consultConvMsg m).parts = [m.content]
    ∧ (wordConvMsg w).parts = [w.content.getD ""]
    ∧ (m.role = "user" → (consultConvMsg m).role = "user")
    ∧ (m.role ≠ "user" → (consultConvMsg m).role = "model")
    ∧ (w.role = some "user" → (wordConvMsg w).role = "user")
    ∧ (w.role ≠ some "user" → (wordConvMsg w).role = "model")
    ∧ convert_to_gemini_history msgs = (pySliceLast MAX_HISTORY msgs).map consultConvMsg
    ∧ to_gemini_history wmsgs = wmsgs.map wordConvMsg := by
  refine ⟨rfl, rfl, ?_, ?_, ?_, ?_, rfl, rfl⟩ <;>
    · intro h
      simp [consultConvMsg, wordConvMsg, h]

/-- Witness for C5: an assistant turn and an unknown role both map to model,
and a user turn maps to user. -/
theorem c5_role_mapping_witness :
    (consultConvMsg ⟨"assistant", "반가워요"⟩).role = "model"
    ∧ (wordConvMsg ⟨some "tool", some "x"⟩).role = "model"
    ∧ (consultConvMsg ⟨"user", "안녕"⟩).role = "user" := by
  have h1 := c5_role_mapping ⟨"assistant", "반가워요"⟩ ⟨some "tool", some "x"⟩ [] []
  have h2 := c5_role_mapping ⟨"user", "안녕"⟩ ⟨none, none⟩ [] []
  exact ⟨h1.2.2.2.1 (by decide), h1.2.2.2.2.2.1 (by decide), h2.2.2.1 rfl⟩

/-- Claim C9: after the consult.py chat input handler completes (user turn
appended, orchestrated reply appended, history trimmed), the stored message
list is exactly the last MAX_HISTORY-sized tail of the appended history, and
in particular never exceeds MAX_HISTORY = 30 messages. -/
theorem c9_history_bound (messages : List ChatMsg) (user_text : String)
    (env : GeminiEnv) (mood : Option Int) (mood_note : Option String) :
    (chat_input_handler messages user_text env mood mood_note).length ≤ MAX_HISTORY
    ∧ chat_input_handler messages user_text env mood mood_note
        = pySliceLast MAX_HISTORY
            (messages ++ [⟨"user", user_text⟩,
              ⟨"assistant", (stream_gemini_reply env user_text mood mood_note
                (messages ++ [⟨"user", user_text⟩])).text⟩]) := by
  have heq : chat_input_handler messages user_text env mood mood_note
      = pySliceLast MAX_HISTORY
          (messages ++ [⟨"user", user_text⟩,
            ⟨"assistant", (stream_gemini_reply env user_text mood mood_note
              (messages ++ [⟨"user", user_text⟩])).text⟩]) := by
    simp only [chat_input_handler, trim_history_eq, List.append_assoc, List.cons_append,
      List.nil_append]
  refine ⟨?_, heq⟩
  rw [heq, pySliceLast_length]
  exact Nat.min_le_left _ _

/-- Claim C10: the vocabulary adapter is total on turns without a content
entry; the corresponding external turn carries the empty string as its sole
content fragment. -/
theorem c10_missing_content_total (msgs : List WordMsg) (i : Nat) (m : WordMsg)
    (h1 : msgs.get? i = some m) (h2 : m.content = none) :
    (to_gemini_history msgs).get? i
      = some ⟨if m.role = some "user" then "user" else "model", [""]⟩ := by
  rw [List.get?_eq_getElem?] at h1
  simp [to_gemini_history, List.get?_eq_getElem?, List.getElem?_map, h1, wordConvMsg, h2]

/-- Witness for C10: a single user turn without content maps to a user turn
whose sole part is the empty string. -/
theorem c10_missing_content_total_witness :
    (to_gemini_history [⟨some "user", none⟩]).get? 0 = some ⟨"user", [""]⟩ := by
  simpa using c10_missing_content_total [⟨some "user", none⟩] 0 ⟨some "user", none⟩ rfl rfl

/-- Claim C2: the reply orchestrators are total functions into text (the
embedding returns a plain string for every environment, prompt and history,
so no exception crosses the boundary), and when every tier fails both return
a non-empty error string naming the underlying cause: consult.py returns the
final generate_content exception message behind its error marker, and
word.py returns the message of the exception of its failing fallback. -/
theorem c2_reply_error_result (cenv : GeminiEnv) (wenv : WordEnv) (p : String)
    (mood : Option Int) (note : Option String) (msgs : List ChatMsg) (ec ew : String)
    (hc : (cenv.startChatFails = true ∧ cenv.genResult = Except.error ec)
        ∨ (cenv.startChatFails = false ∧ pyStrip (accumChunks cenv.chunks) = ""
           ∧ (∃ es, cenv.sendResult = Except.error es) ∧ cenv.genResult = Except.error ec))
    (hw : (wenv.startChatFails = true ∧ wenv.restartResult = Except.error ew)
        ∨ (wenv.startChatFails = true ∧ wenv.restartResult = Except.ok ()
           ∧ wenv.sendResult = Except.error ew)
        ∨ (wenv.startChatFails = false ∧ wenv.chunksResult = Except.error ()
           ∧ wenv.sendResult = Except.error ew)) :
    (stream_gemini_reply cenv p mood note msgs).text = "(오류) " ++ ec
    ∧ (stream_gemini_reply cenv p mood note msgs).text ≠ ""
    ∧ word_chat_reply wenv = "오류: " ++ ew
    ∧ word_chat_reply wenv ≠ "" := by
  have htc : (stream_gemini_reply cenv p mood note msgs).text = "(오류) " ++ ec := by
    rcases hc with ⟨h1, h2⟩ | ⟨h1, h2, ⟨es, h3⟩, h4⟩
    · simp [stream_gemini_reply, statelessTier, h1, h2]
    · simp [stream_gemini_reply, statelessTier, h1, h2, h3, h4]
  have htw : word_chat_reply wenv = "오류: " ++ ew := by
    rcases hw with ⟨h1, h2⟩ | ⟨h1, h2, h3⟩ | ⟨h1, h2, h3⟩
    · simp [word_chat_reply, h1, h2]
    · simp [word_chat_reply, h1, h2, h3]
    · simp [word_chat_reply, h1, h2, h3]
  refine ⟨htc, ?_, htw, ?_⟩
  · rw [htc]
    exact append_left_ne_empty _ _ (by decide)
  · rw [htw]
    exact append_left_ne_empty _ _ (by decide)

/-- Witness for C2: a concrete request on which the consult.py session
creation and the stateless call fail, and a concrete word.py request on
which streaming and the same-session retry fail. -/
theorem c2_reply_error_result_witness :
    (stream_gemini_reply ⟨true, [], Except.error "s", Except.error "api down"⟩
        "불안해" none none []).text = "(오류) " ++ "api down"
    ∧ (stream_gemini_reply ⟨true, [], Except.error "s", Except.error "api down"⟩
        "불안해" none none []).text ≠ ""
    ∧ word_chat_reply ⟨false, Except.error (), Except.ok (), Except.error "quota"⟩
        = "오류: " ++ "quota"
    ∧ word_chat_reply ⟨false, Except.error (), Except.ok (), Except.error "quota"⟩ ≠ "" :=
  c2_reply_error_result ⟨true, [], Except.error "s", Except.error "api down"⟩
    ⟨false, Except.error (), Except.ok (), Except.error "quota"⟩
    "불안해" none none [] "api down" "quota"
    (Or.inl ⟨rfl, rfl⟩) (Or.inr (Or.inr ⟨rfl, rfl, rfl⟩))

/-- Claim C3 fails on the code: when session creation itself raises, the
source jumps from the outer try directly to the stateless tier, so with no
accumulated text the same-session fallback is never issued, and the
stateless call is issued without the same-session fallback having failed. -/
theorem c3_fallback_order_counterexample :
    accumChunks ([] : List (Option String)) = ""
    ∧ (stream_gemini_reply ⟨true, [], Except.ok (some "답1"), Except.ok (some "답2")⟩
        "p" none none []).calls = [ApiCall.statelessGen]
    ∧ ApiCall.singleSend ∉ (stream_gemini_reply
        ⟨true, [], Except.ok (some "답1"), Except.ok (some "답2")⟩
        "p" none none []).calls := by
  refine ⟨rfl, rfl, ?_⟩
  decide

/-- Claim C3 amended: when session creation succeeds, streaming is attempted,
the same-session fallback is issued exactly when the accumulated streamed
text is blank after stripping, and the stateless call is issued exactly when
moreover the same-session fallback raised; when session creation fails the
request skips directly to the stateless call; every tier is attempted at
most once. -/
theorem c3_fallback_order_amended (env : GeminiEnv) (p : String) (mood : Option Int)
    (note : Option String) (msgs : List ChatMsg) :
    (env.startChatFails = true →
      (stream_gemini_reply env p mood note msgs).calls = [ApiCall.statelessGen])
    ∧ (env.startChatFails = false →
        ApiCall.streamSend ∈ (stream_gemini_reply env p mood note msgs).calls
        ∧ (ApiCall.singleSend ∈ (stream_gemini_reply env p mood note msgs).calls
            ↔ pyStrip (accumChunks env.chunks) = "")
        ∧ (ApiCall.statelessGen ∈ (stream_gemini_reply env p mood note msgs).calls
            ↔ pyStrip (accumChunks env.chunks) = ""
              ∧ ∃ e, env.sendResult = Except.error e))
    ∧ (stream_gemini_reply env p mood note msgs).calls.count ApiCall.streamSend ≤ 1
    ∧ (stream_gemini_reply env p mood note msgs).calls.count ApiCall.singleSend ≤ 1
    ∧ (stream_gemini_reply env p mood note msgs).calls.count ApiCall.statelessGen ≤ 1 := by
  obtain ⟨sc, chunks, send, gen⟩ := env
  cases sc
  · by_cases h : pyStrip (accumChunks chunks) = ""
    · cases send <;> cases gen <;>
        simp [stream_gemini_reply, statelessTier, h, List.count_cons, List.count_nil]
    · simp [stream_gemini_reply, h, List.count_cons, List.count_nil]
  · cases gen <;>
      simp [stream_gemini_reply, statelessTier, List.count_cons, List.count_nil]

/-- Witness for the amended C3: a failing session creation issues exactly the
stateless call. -/
theorem c3_fallback_order_amended_witness :
    (stream_gemini_reply ⟨true, [some "부분"], Except.error "x", Except.error "y"⟩
        "p" none none []).calls = [ApiCall.statelessGen] :=
  (c3_fallback_order_amended ⟨true, [some "부분"], Except.error "x", Except.error "y"⟩
    "p" none none []).1 rfl
